import Mathlib

/-!
# Towl/logger: a shallow embedding of `logger.go`

The Go package is a leveled logger on top of the standard `log` package.
The embedding is a state-passing one.  A `World` holds the process
environment, the state of the file system, the package variable `logger`
(the cached instance), an allocation counter giving every constructed
`Logger` its identity, and the chronological trace of the observable
events: environment reads, entries written by the standard logger of
package `log` (the secondary sink) and entries written by a `log.Logger` to
its file (the primary destination).

What belongs to the Go runtime and the operating system and has no source
in this package is taken as a parameter (`Host`): `fmt.Sprintf` on caller
supplied templates, `strconv.Quote`, `debug.Stack`, `filepath.Dir` and the
file-system calls of package `os`.  Every theorem holds for every `Host`.
Timestamps written by `log.Logger` are not part of the model, and neither is
`SetPrefix`, which no statement below is about.
-/

set_option linter.dupNamespace false

namespace logger

/-! ## Values of the Go runtime -/

/-- Go `error` interface value: `none` is `nil`, `some m` an error whose `Error()` text is `m`. -/
abbrev error := Option String

/-- Operands passed as `...interface{}` to the formatting functions. -/
inductive Value where
  | str (s : String)
  | bool (b : Bool)
  | bytes (b : String)
  | err (e : error)
  deriving DecidableEq, Repr

/-- An open `*os.File`, identified by the name it was opened with. -/
structure File where
  name : String
  deriving DecidableEq, Repr

/-- A `*log.Logger` of the standard library: output, line prefix and header flags. -/
structure GoLog where
  out : File
  pre : String
  flag : Nat
  deriving DecidableEq, Repr

/-- Level of the log for output. -/
abbrev Level := Int

/-- Level constant `Error` (`iota + 1`). -/
def Error : Level := 1
/-- Level constant `Warning`. -/
def Warning : Level := 2
/-- Level constant `Info`. -/
def Info : Level := 3
/-- Level constant `Debug`. -/
def Debug : Level := 4
/-- Level constant `Trace`. -/
def Trace : Level := 5

/-- The map `logLevelLookup` from level names to levels. -/
def logLevelLookup : List (String × Level) :=
  [("trace", Trace), ("debug", Debug), ("info", Info), ("warning", Warning), ("error", Error)]

/-- Go map index expression `m[k]`: the zero value when the key is absent. -/
def mapIndex (m : List (String × Level)) (k : String) : Level :=
  (m.lookup k).getD 0

/-- Go comma-ok map index `_, ok := m[k]`. -/
def mapHas (m : List (String × Level)) (k : String) : Bool :=
  (m.lookup k).isSome

/-- Logger object for logs.  `addr` is the identity of the allocated struct
(Go hands it around as `*Logger`). -/
structure Logger where
  addr : Nat
  EnvPrefix : String
  Logger : GoLog
  Level : logger.Level
  SysLog : Bool
  deriving DecidableEq, Repr

/-- Observable events, in the order they happen. -/
inductive Event where
  /-- A call `os.Getenv(key)`. -/
  | getenv (key : String)
  /-- One entry written by the standard logger of package `log`. -/
  | std (line : String)
  /-- One entry written by a `log.Logger` to its file, after its prefix and timestamp header. -/
  | file (out : File) (pre : String) (line : String)
  deriving DecidableEq, Repr

/-- What the package takes from the Go runtime and the operating system. -/
structure Host (σ : Type) where
  /-- The function `fmt.Sprintf`. -/
  Sprintf : String → List Value → String
  /-- The function `strconv.Quote`. -/
  Quote : String → String
  /-- The result of `debug.Stack()` at the call in `Recover`. -/
  Stack : String
  /-- The function `filepath.Dir`. -/
  Dir : String → String
  /-- Whether `os.IsNotExist(e)` holds for `_, e := os.Stat(path)`. -/
  StatNotExist : σ → String → Bool
  /-- The call `os.MkdirAll(path, perm)`: its error and the file system after it. -/
  MkdirAll : σ → String → Nat → error × σ
  /-- The call `os.Create(path)`: its error and the file system after it. -/
  Create : σ → String → error × σ
  /-- The call `os.OpenFile(path, flag, perm)`: its error and the file system after it. -/
  OpenFile : σ → String → Nat → Nat → error × σ

/-- State of the process as far as the package sees it. -/
structure World (σ : Type) where
  env : List (String × String)
  fs : σ
  /-- The package variable `var logger *Logger`. -/
  logger : Option Logger
  /-- Flags of the standard logger (`log.SetFlags`). -/
  stdFlags : Nat
  /-- Number of `Logger` structs allocated so far. -/
  next : Nat
  trace : List Event

/-- How a call ends: it returns, it panics with a value, or the process exits. -/
inductive Outcome (α : Type) where
  | ret (a : α)
  | panic (v : String)
  | exit (code : Int)
  deriving DecidableEq, Repr

/-- A Go computation: from the world before to its outcome and the world after. -/
def Go (σ α : Type) : Type := World σ → Outcome α × World σ

/-- Sequencing: what follows runs only when the first part returns. -/
def Go.bind {σ α β : Type} (m : Go σ α) (f : α → Go σ β) : Go σ β := fun w =>
  match m w with
  | (Outcome.ret a, w1) => f a w1
  | (Outcome.panic v, w1) => (Outcome.panic v, w1)
  | (Outcome.exit c, w1) => (Outcome.exit c, w1)

/-- Returning a value without touching the world. -/
def Go.pure {σ α : Type} (a : α) : Go σ α := fun w => (Outcome.ret a, w)

instance {σ : Type} : Monad (Go σ) where
  pure := Go.pure
  bind := Go.bind

variable {σ : Type}

/-- The world after a call, with the events `evs` added to the trace. -/
def push (w : World σ) (evs : List Event) : World σ :=
  { w with trace := w.trace ++ evs }

/-- Append one event to the trace. -/
def emit (e : Event) : Go σ Unit := fun w =>
  (Outcome.ret (), push w [e])

/-! ## Standard library: `os`, `strconv`, `log` -/

/-- The call `os.Getenv(key)`: the value, or the empty string when unset. -/
def os.Getenv (key : String) : Go σ String := fun w =>
  (Outcome.ret ((w.env.lookup key).getD ""), push w [Event.getenv key])

/-- The test `_, e := os.Stat(path); os.IsNotExist(e)`. -/
def os.StatNotExist (h : Host σ) (path : String) : Go σ Bool := fun w =>
  (Outcome.ret (h.StatNotExist w.fs path), w)

/-- The call `os.MkdirAll(path, perm)`. -/
def os.MkdirAll (h : Host σ) (path : String) (perm : Nat) : Go σ error := fun w =>
  (Outcome.ret (h.MkdirAll w.fs path perm).1, { w with fs := (h.MkdirAll w.fs path perm).2 })

/-- The call `os.Create(path)`; the file it returns is dropped by the caller. -/
def os.Create (h : Host σ) (path : String) : Go σ error := fun w =>
  (Outcome.ret (h.Create w.fs path).1, { w with fs := (h.Create w.fs path).2 })

/-- The call `os.OpenFile(path, flag, perm)`. -/
def os.OpenFile (h : Host σ) (path : String) (flag perm : Nat) : Go σ (File × error) := fun w =>
  (Outcome.ret (File.mk path, (h.OpenFile w.fs path flag perm).1),
    { w with fs := (h.OpenFile w.fs path flag perm).2 })

/-- Open flag `os.O_RDWR` (its value on Linux). -/
def os.O_RDWR : Nat := 2
/-- Open flag `os.O_APPEND` (its value on Linux). -/
def os.O_APPEND : Nat := 1024

/-- The function `strconv.ParseBool`. -/
def strconv.ParseBool (h : Host σ) (str : String) : Bool × error :=
  if str = "1" ∨ str = "t" ∨ str = "T" ∨ str = "TRUE" ∨ str = "true" ∨ str = "True" then
    (true, none)
  else if str = "0" ∨ str = "f" ∨ str = "F" ∨ str = "FALSE" ∨ str = "false" ∨ str = "False" then
    (false, none)
  else
    (false, some ("strconv.ParseBool: parsing " ++ h.Quote str ++ ": invalid syntax"))

/-- An entry as `log` writes it: a newline is added unless the text ends in one. -/
def log.entry (s : String) : String :=
  if s.data.getLast? = some '\n' then s else s ++ "\n"

/-- The call `log.Println(s)` on the standard logger. -/
def log.Println (s : String) : Go σ Unit :=
  emit (Event.std (log.entry (s ++ "\n")))

/-- The call `log.Printf(format, a...)` on the standard logger. -/
def log.Printf (h : Host σ) (format : String) (a : List Value) : Go σ Unit :=
  emit (Event.std (log.entry (h.Sprintf format a)))

/-- The call `log.Panic(s)`: print on the standard logger, then `panic(s)`. -/
def log.Panic {α : Type} (s : String) : Go σ α := fun w =>
  (Outcome.panic s, push w [Event.std (log.entry s)])

/-- The call `log.Fatal(s)`: print on the standard logger, then `os.Exit(1)`. -/
def log.Fatal {α : Type} (s : String) : Go σ α := fun w =>
  (Outcome.exit 1, push w [Event.std (log.entry s)])

/-- The call `log.SetFlags(flag)` on the standard logger. -/
def log.SetFlags (flag : Nat) : Go σ Unit := fun w =>
  (Outcome.ret (), { w with stdFlags := flag })

/-- The constructor `log.New(out, prefix, flag)`. -/
def log.New (out : File) (pre : String) (flag : Nat) : GoLog :=
  { out := out, pre := pre, flag := flag }

/-- Header flags `log.Ldate`, `log.Ltime`, `log.Lmicroseconds`. -/
def log.Ldate : Nat := 1
/-- Header flag `log.Ltime`. -/
def log.Ltime : Nat := 2
/-- Header flag `log.Lmicroseconds`. -/
def log.Lmicroseconds : Nat := 4

/-- The method `(*log.Logger).Println(s)`. -/
def GoLog.Println (g : GoLog) (s : String) : Go σ Unit :=
  emit (Event.file g.out g.pre (log.entry (s ++ "\n")))

/-- The rendering `fmt.Sprintf("[%s] \"%s\"", p, s)` of two string operands:
each `%s` is replaced by its operand as it is. -/
def sprintfTag (p s : String) : String :=
  "[" ++ p ++ "] \"" ++ s ++ "\""

/-! ## The package -/

/-- Read the package variable `logger`. -/
def getLogger : Go σ (Option Logger) := fun w => (Outcome.ret w.logger, w)

/-- Assign the package variable `logger`. -/
def setLogger (l : Option Logger) : Go σ Unit := fun w =>
  (Outcome.ret (), { w with logger := l })

/-- Allocation `&Logger{...}`: the struct gets the next free identity. -/
def alloc (g : GoLog) (lv : Level) (b : Bool) : Go σ Logger := fun w =>
  (Outcome.ret { addr := w.next, EnvPrefix := "", Logger := g, Level := lv, SysLog := b },
    { w with next := w.next + 1 })

/-- PrepareFile for writing logs. -/
def PrepareFile (h : Host σ) (f : String) : Go σ File := do
  let d := h.Dir f
  (do
    if (← os.StatNotExist h d) then
      match (← os.MkdirAll h d 509) with
      | some e => log.Panic e
      | none => pure ())
  (do
    if (← os.StatNotExist h f) then
      match (← os.Create h f) with
      | some e => log.Panic e
      | none => pure ())
  let (l, e) ← os.OpenFile h f (os.O_RDWR ||| os.O_APPEND) 438
  match e with
  | some e => log.Panic e
  | none => pure l

/-- The unexported method `log`. -/
def Logger.log (l : logger.Logger) (s : String) (p : String) : Go σ Unit :=
  l.Logger.Println (sprintfTag p s)

/-- Sys logs string on output. -/
def Logger.Sys (l : logger.Logger) (s : String) : Go σ Unit :=
  if l.SysLog then log.Println s else pure ()

/-- Sysf logs Sprintf on output. -/
def Logger.Sysf (h : Host σ) (l : logger.Logger) (s : String) (a : List Value) : Go σ Unit :=
  l.Sys (h.Sprintf s a)

/-- Trace logs Trace string. -/
def Logger.Trace (l : logger.Logger) (s : String) : Go σ Unit :=
  if l.Level ≥ logger.Trace then l.log s "TRACE" else pure ()

/-- Tracef logs Trace string using Sprintf. -/
def Logger.Tracef (h : Host σ) (l : logger.Logger) (s : String) (a : List Value) : Go σ Unit :=
  l.Trace (h.Sprintf s a)

/-- Debug logs Debug string. -/
def Logger.Debug (l : logger.Logger) (s : String) : Go σ Unit :=
  if l.Level ≥ logger.Debug then l.log s "DEBUG" else pure ()

/-- Debugf logs Debug string using Sprintf. -/
def Logger.Debugf (h : Host σ) (l : logger.Logger) (s : String) (a : List Value) : Go σ Unit :=
  l.Debug (h.Sprintf s a)

/-- Info logs Info string. -/
def Logger.Info (l : logger.Logger) (s : String) : Go σ Unit :=
  if l.Level ≥ logger.Info then l.log s "INFO" else pure ()

/-- Infof logs string using Sprintf. -/
def Logger.Infof (h : Host σ) (l : logger.Logger) (s : String) (a : List Value) : Go σ Unit :=
  l.Info (h.Sprintf s a)

/-- Warning logs Warning string. -/
def Logger.Warning (l : logger.Logger) (s : String) : Go σ Unit := do
  l.Sys s
  if l.Level ≥ logger.Warning then l.log s "WARN" else pure ()

/-- Warningf logs Warning Sprintf. -/
def Logger.Warningf (h : Host σ) (l : logger.Logger) (s : String) (a : List Value) : Go σ Unit :=
  l.Warning (h.Sprintf s a)

/-- Warninge logs string if Error not nil. -/
def Logger.Warninge (h : Host σ) (l : logger.Logger) (e : error) (s : String) (a : List Value) :
    Go σ Unit :=
  if e ≠ none then l.Warningf h s a else pure ()

/-- Error logs error on output and file. -/
def Logger.Error (l : logger.Logger) (s : String) : Go σ Unit := do
  l.Sys s
  l.log s "ERROR"

/-- Errorf logs Sprintf on output and file. -/
def Logger.Errorf (h : Host σ) (l : logger.Logger) (s : String) (a : List Value) : Go σ Unit :=
  l.Error (h.Sprintf s a)

/-- Errore logs Sprintf if Error not nil on output and file. -/
def Logger.Errore (h : Host σ) (l : logger.Logger) (e : error) (s : String) (a : List Value) :
    Go σ Unit :=
  if e ≠ none then l.Errorf h s a else pure ()

/-- Panic logs string then Panic. -/
def Logger.Panic (l : logger.Logger) (s : String) : Go σ Unit := do
  l.Sys s
  l.log s "PANIC"
  log.Panic s

/-- Panicf logs Sprintf then Panic. -/
def Logger.Panicf (h : Host σ) (l : logger.Logger) (s : String) (a : List Value) : Go σ Unit :=
  l.Panic (h.Sprintf s a)

/-- Recover logs string. -/
def Logger.Recover (h : Host σ) (l : logger.Logger) (s : String) : Go σ Unit := do
  l.Sys s
  l.log s "RECOVER"
  l.Debugf h "Panic was : %s" [Value.bytes h.Stack]

/-- Recoverf logs Sprintf. -/
def Logger.Recoverf (h : Host σ) (l : logger.Logger) (s : String) (a : List Value) : Go σ Unit :=
  l.Recover h (h.Sprintf s a)

/-- Panice logs Error if not nil then Panic. -/
def Logger.Panice (h : Host σ) (l : logger.Logger) (e : error) (s : String) (a : List Value) :
    Go σ Unit :=
  if e ≠ none then l.Panicf h s a else pure ()

/-- Fatal logs string then exit. -/
def Logger.Fatal (l : logger.Logger) (s : String) : Go σ Unit := do
  l.log s "FATAL"
  l.Sys s
  log.Fatal s

/-- Fatalf logs Sprintf then exit. -/
def Logger.Fatalf (h : Host σ) (l : logger.Logger) (s : String) (a : List Value) : Go σ Unit :=
  l.Fatal (h.Sprintf s a)

/-- Fatale logs Error if not nil then exit. -/
def Logger.Fatale (h : Host σ) (l : logger.Logger) (e : error) (s : String) (a : List Value) :
    Go σ Unit :=
  if e ≠ none then l.Fatalf h s a else pure ()

/-- NewLogger return a Logger instance from configs. -/
def NewLogger (h : Host σ) (f : String) (p : String) (v : String) (b : Bool) : Go σ Logger := do
  let i ← PrepareFile h f
  let l ← alloc (log.New i p (log.Ldate ||| log.Ltime ||| log.Lmicroseconds))
    (mapIndex logLevelLookup v) b
  l.Debug "New logger created"
  pure l

/-- GetLoggerFromEnv use LOG_SYSLOG, LOG_FILE, LOG_LEVEL and LOG_PREFIX to
instantiate the logger.  Create a new one if n = true. -/
def GetLoggerFromEnv (h : Host σ) (w : String) (n : Bool) : Go σ (Option Logger) := do
  let cur ← getLogger
  if n == true || cur.isNone || cur.any (fun c => c.EnvPrefix != w) then
    let (s0, e) := strconv.ParseBool h (← os.Getenv (w ++ "LOG_SYSLOG"))
    let s ← (match e with
      | some e => do
          log.Printf h "[WARN] Unable to parse %sLOG_SYSLOG : %s\n" [Value.str w, Value.err (some e)]
          log.Printf h "[WARN] Using default value \"%v\"\n" [Value.bool false]
          pure false
      | none => pure s0)
    let f0 ← os.Getenv (w ++ "LOG_FILE")
    let f ← (if f0.utf8ByteSize < 3 then do
        log.Printf h "[WARN] Invalid value for %sLOG_FILE : \"%s\"\n" [Value.str w, Value.str f0]
        log.Printf h "[WARN] Using default value \"%s\"\n" [Value.str "/dev/stdout"]
        pure "/dev/stdout"
      else pure f0)
    let l0 ← os.Getenv (w ++ "LOG_LEVEL")
    let l ← (if !(mapHas logLevelLookup l0) then do
        log.Printf h "[WARN] Invalid value for %sLOG_LEVEL \"%s\"\n" [Value.str w, Value.str l0]
        log.Printf h "[WARN] Using default value \"%s\"\n" [Value.str "info"]
        pure "info"
      else pure l0)
    let p ← os.Getenv (w ++ "LOG_PREFIX")
    let c ← NewLogger h f p l s
    setLogger (some c)
    setLogger (some { c with EnvPrefix := w })
  getLogger

/-- The package initialiser `init`. -/
def init (h : Host σ) : Go σ Unit := do
  log.SetFlags 0
  let c ← GetLoggerFromEnv h "" false
  setLogger c

/-! ## Observations on traces -/

/-- The events a call added: the trace after it, without the trace before it. -/
def added (w w1 : World σ) : List Event :=
  w1.trace.drop w.trace.length

/-- The entries written to the file `out` (the primary destination), in order. -/
def primary (out : File) : List Event → List String
  | [] => []
  | Event.file o _ line :: es => if o = out then line :: primary out es else primary out es
  | _ :: es => primary out es

/-- The entries written by the standard logger (the secondary sink), in order. -/
def secondary : List Event → List String
  | [] => []
  | Event.std line :: es => line :: secondary es
  | _ :: es => secondary es

/-- The environment variables read, in order. -/
def reads : List Event → List String
  | [] => []
  | Event.getenv k :: es => k :: reads es
  | _ :: es => reads es

/-- What the call `m`, made in the world `w`, wrote to the file of the logger `l`. -/
def wrote {α : Type} (l : Logger) (m : Go σ α) (w : World σ) : List String :=
  primary l.Logger.out (added w (m w).2)

/-- What the call `m`, made in the world `w`, wrote through the standard logger. -/
def sysWrote {α : Type} (m : Go σ α) (w : World σ) : List String :=
  secondary (added w (m w).2)

/-- The entry `[TAG] "s"` followed by the newline that `Println` ends it with. -/
def tagged (tag s : String) : String :=
  "[" ++ tag ++ "] \"" ++ s ++ "\"" ++ "\n"

/-- The events of the gated forwarding `Sys`. -/
def sysEvents (l : Logger) (s : String) : List Event :=
  if l.SysLog then [Event.std (s ++ "\n")] else []

/-- The entry a logger writes to its own file for the tag `tag` and the message `s`. -/
def fileEvent (l : Logger) (tag s : String) : Event :=
  Event.file l.Logger.out l.Logger.pre (tagged tag s)

/-! ## Auxiliary definitions for stating what construction does -/

/-- The struct that `NewLogger` allocates at identity `a` around the open file `i`. -/
def built (a : Nat) (i : File) (p v : String) (b : Bool) : Logger :=
  { addr := a, EnvPrefix := "", Logger := log.New i p (log.Ldate ||| log.Ltime ||| log.Lmicroseconds),
    Level := mapIndex logLevelLookup v, SysLog := b }

/-- The value `os.Getenv` gives for `key` in the environment `env`. -/
def getenv (env : List (String × String)) (key : String) : String :=
  (env.lookup key).getD ""

/-- The flag `s` that `GetLoggerFromEnv` passes on, from the value of `LOG_SYSLOG`. -/
def envSysLog (h : Host σ) (v : String) : Bool :=
  match (strconv.ParseBool h v).2 with
  | some _ => false
  | none => (strconv.ParseBool h v).1

/-- The file name `f` that `GetLoggerFromEnv` passes on, from the value of `LOG_FILE`. -/
def envFile (v : String) : String :=
  if v.utf8ByteSize < 3 then "/dev/stdout" else v

/-- The level name `l` that `GetLoggerFromEnv` passes on, from the value of `LOG_LEVEL`. -/
def envLevel (v : String) : String :=
  if !(mapHas logLevelLookup v) then "info" else v

/-- The two warnings printed when `LOG_SYSLOG` does not parse. -/
def sysLogWarnings (h : Host σ) (w v : String) : List Event :=
  match (strconv.ParseBool h v).2 with
  | some e =>
    [Event.std (log.entry (h.Sprintf "[WARN] Unable to parse %sLOG_SYSLOG : %s\n"
        [Value.str w, Value.err (some e)])),
      Event.std (log.entry (h.Sprintf "[WARN] Using default value \"%v\"\n" [Value.bool false]))]
  | none => []

/-- The two warnings printed when `LOG_FILE` is shorter than three bytes. -/
def fileWarnings (h : Host σ) (w v : String) : List Event :=
  if v.utf8ByteSize < 3 then
    [Event.std (log.entry (h.Sprintf "[WARN] Invalid value for %sLOG_FILE : \"%s\"\n"
        [Value.str w, Value.str v])),
      Event.std (log.entry (h.Sprintf "[WARN] Using default value \"%s\"\n"
        [Value.str "/dev/stdout"]))]
  else []

/-- The two warnings printed when `LOG_LEVEL` is not a key of `logLevelLookup`. -/
def levelWarnings (h : Host σ) (w v : String) : List Event :=
  if !(mapHas logLevelLookup v) then
    [Event.std (log.entry (h.Sprintf "[WARN] Invalid value for %sLOG_LEVEL \"%s\"\n"
        [Value.str w, Value.str v])),
      Event.std (log.entry (h.Sprintf "[WARN] Using default value \"%s\"\n" [Value.str "info"]))]
  else []

/-- The events of the configuration part of `GetLoggerFromEnv`: the four reads
and, after each of the first three, its warnings. -/
def configEvents (h : Host σ) (env : List (String × String)) (w : String) : List Event :=
  [Event.getenv (w ++ "LOG_SYSLOG")] ++ sysLogWarnings h w (getenv env (w ++ "LOG_SYSLOG")) ++
  [Event.getenv (w ++ "LOG_FILE")] ++ fileWarnings h w (getenv env (w ++ "LOG_FILE")) ++
  [Event.getenv (w ++ "LOG_LEVEL")] ++ levelWarnings h w (getenv env (w ++ "LOG_LEVEL")) ++
  [Event.getenv (w ++ "LOG_PREFIX")]

/-- The condition under which `GetLoggerFromEnv` builds a new logger. -/
def stale (cache : Option Logger) (w : String) (n : Bool) : Bool :=
  n == true || cache.isNone || cache.any (fun c => c.EnvPrefix != w)

/-- The logger that `GetLoggerFromEnv` builds in the world `st` for the
namespace prefix `w`. -/
def resolved (h : Host σ) (st : World σ) (w : String) : Logger :=
  { addr := st.next, EnvPrefix := w,
    Logger := log.New (File.mk (envFile (getenv st.env (w ++ "LOG_FILE"))))
      (getenv st.env (w ++ "LOG_PREFIX")) (log.Ldate ||| log.Ltime ||| log.Lmicroseconds),
    Level := mapIndex logLevelLookup (envLevel (getenv st.env (w ++ "LOG_LEVEL"))),
    SysLog := envSysLog h (getenv st.env (w ++ "LOG_SYSLOG")) }

/-! ## The configuration fallback in the words of the specification -/

/-- The destination: the value of `LOG_FILE` if its length is at least 3,
otherwise the standard-output destination. -/
def specFile (v : String) : String :=
  if 3 ≤ v.utf8ByteSize then v else "/dev/stdout"

/-- The threshold: the level named by `LOG_LEVEL` if it is exactly one of the
five names, otherwise Info. -/
def specLevel (v : String) : Level :=
  if v = "trace" then Trace
  else if v = "debug" then Debug
  else if v = "info" then Info
  else if v = "warning" then Warning
  else if v = "error" then Error
  else Info

/-- The boolean a value parses to, if it parses. -/
def specParse (v : String) : Option Bool :=
  if v ∈ ["1", "t", "T", "TRUE", "true", "True"] then some true
  else if v ∈ ["0", "f", "F", "FALSE", "false", "False"] then some false
  else none

/-- The secondary-sink flag: the parsed boolean of `LOG_SYSLOG` if it parses,
otherwise false. -/
def specSysLog (v : String) : Bool :=
  (specParse v).getD false

/-! ## The entry points of a logger, as one type -/

/-- A call of one of the logging methods, with its arguments. -/
inductive Call where
  | Trace (s : String)
  | Tracef (s : String) (a : List Value)
  | Debug (s : String)
  | Debugf (s : String) (a : List Value)
  | Info (s : String)
  | Infof (s : String) (a : List Value)
  | Warning (s : String)
  | Warningf (s : String) (a : List Value)
  | Warninge (e : error) (s : String) (a : List Value)
  | Error (s : String)
  | Errorf (s : String) (a : List Value)
  | Errore (e : error) (s : String) (a : List Value)
  | Panic (s : String)
  | Panicf (s : String) (a : List Value)
  | Panice (e : error) (s : String) (a : List Value)
  | Recover (s : String)
  | Recoverf (s : String) (a : List Value)
  | Fatal (s : String)
  | Fatalf (s : String) (a : List Value)
  | Fatale (e : error) (s : String) (a : List Value)
  | Sys (s : String)
  | Sysf (s : String) (a : List Value)

/-- The method that a `Call` stands for, applied to the logger `l`. -/
def Logger.call (h : Host σ) (l : logger.Logger) : Call → Go σ Unit
  | Call.Trace s => l.Trace s
  | Call.Tracef s a => l.Tracef h s a
  | Call.Debug s => l.Debug s
  | Call.Debugf s a => l.Debugf h s a
  | Call.Info s => l.Info s
  | Call.Infof s a => l.Infof h s a
  | Call.Warning s => l.Warning s
  | Call.Warningf s a => l.Warningf h s a
  | Call.Warninge e s a => l.Warninge h e s a
  | Call.Error s => l.Error s
  | Call.Errorf s a => l.Errorf h s a
  | Call.Errore e s a => l.Errore h e s a
  | Call.Panic s => l.Panic s
  | Call.Panicf s a => l.Panicf h s a
  | Call.Panice e s a => l.Panice h e s a
  | Call.Recover s => l.Recover h s
  | Call.Recoverf s a => l.Recoverf h s a
  | Call.Fatal s => l.Fatal s
  | Call.Fatalf s a => l.Fatalf h s a
  | Call.Fatale e s a => l.Fatale h e s a
  | Call.Sys s => l.Sys s
  | Call.Sysf s a => l.Sysf h s a

/-! ## A concrete host and concrete worlds for the examples -/

/-- A small file system: the paths that exist, and the paths on which every
call fails with an error other than "does not exist" (permission denied). -/
structure Disk where
  paths : List String
  denied : List String
  deriving DecidableEq, Repr

/-- How the example `Sprintf` prints an operand under `%s` and `%v`. -/
def demoRender : Value → String
  | Value.str s => s
  | Value.bool b => if b then "true" else "false"
  | Value.bytes b => b
  | Value.err (some m) => m
  | Value.err none => "<nil>"

/-- The example `Sprintf`: the verbs `%s` and `%v` take the next operand, other text is copied. -/
def demoSubst : List Char → List Value → List Char
  | [], _ => []
  | [c], _ => [c]
  | c :: d :: cs, vs =>
    if c = '%' ∧ (d = 's' ∨ d = 'v') then
      match vs with
      | v :: rest => (demoRender v).data ++ demoSubst cs rest
      | [] => c :: d :: demoSubst cs []
    else c :: demoSubst (d :: cs) vs

/-- The example `filepath.Dir`: the path up to its last slash. -/
def demoDir (f : String) : String :=
  if f.data.contains '/' then
    (if ((f.data.reverse.dropWhile (fun c => c != '/')).drop 1).isEmpty then "/"
     else String.mk ((f.data.reverse.dropWhile (fun c => c != '/')).drop 1).reverse)
  else "."

/-- The example host, on the small file system. -/
def demoHost : Host Disk where
  Sprintf := fun format a => String.mk (demoSubst format.data a)
  Quote := fun s => "\"" ++ s ++ "\""
  Stack := "goroutine 1 [running]:"
  Dir := demoDir
  StatNotExist := fun fs path => !(fs.paths.contains path) && !(fs.denied.contains path)
  MkdirAll := fun fs path _ =>
    if fs.denied.contains path then (some ("mkdir " ++ path ++ ": permission denied"), fs)
    else (none, { fs with paths := path :: fs.paths })
  Create := fun fs path =>
    if fs.denied.contains path then (some ("open " ++ path ++ ": permission denied"), fs)
    else (none, { fs with paths := path :: fs.paths })
  OpenFile := fun fs path _ _ =>
    if fs.denied.contains path then (some ("open " ++ path ++ ": permission denied"), fs)
    else if fs.paths.contains path then (none, fs)
    else (some ("open " ++ path ++ ": no such file or directory"), fs)

/-- The example file system: standard output and `/tmp` exist, `/root/app.log` may not be touched. -/
def demoDisk : Disk :=
  { paths := ["/dev", "/dev/stdout", "/tmp"], denied := ["/root", "/root/app.log"] }

/-- A world before the package is initialised: no cached logger, nothing written. -/
def demoWorld (env : List (String × String)) : World Disk :=
  { env := env, fs := demoDisk, logger := none, stdFlags := 3, next := 0, trace := [] }

/-- A logger on `/tmp/x.log` with the given threshold and secondary-sink flag. -/
def demoLogger (lv : Level) (b : Bool) : Logger :=
  { addr := 0, EnvPrefix := "", Logger := log.New (File.mk "/tmp/x.log") "app: " 7,
    Level := lv, SysLog := b }

/-- A world in which the package variable `logger` already holds `c`. -/
def demoCached (env : List (String × String)) (c : Logger) : World Disk :=
  { demoWorld env with logger := some c, next := c.addr + 1 }

/-- The environment that the test helper `InitTestLog` sets. -/
def demoTestEnv : List (String × String) :=
  [("TEST_LOG_SYSLOG", "true"), ("TEST_LOG_LEVEL", "trace"), ("TEST_LOG_FILE", "/dev/stdout"),
    ("TEST_LOG_PREFIX", "test -- ")]

/-- An environment in which the three validated variables are malformed. -/
def demoBadEnv : List (String × String) :=
  [("LOG_FILE", ""), ("LOG_LEVEL", "verbose"), ("LOG_SYSLOG", "maybe")]

/-- A logger recorded under the prefix `A_`. -/
def demoLoggerA : Logger :=
  { demoLogger Info false with EnvPrefix := "A_" }

/-- A world like `demoWorld` in which standard output cannot be opened. -/
def demoClosedWorld (env : List (String × String)) : World Disk :=
  { demoWorld env with fs := { demoDisk with denied := ["/dev/stdout"] } }

/-- A computation that touches nothing but the file system and, when it
fails, panics after printing the error on the standard logger; `P` holds of
what it returns. -/
def FsStep {α : Type} (P : α → Prop) (m : Go σ α) : Prop :=
  ∀ w, (∃ a fs1, P a ∧ m w = (Outcome.ret a, { w with fs := fs1 })) ∨
    (∃ e fs1, m w = (Outcome.panic e, push { w with fs := fs1 } [Event.std (log.entry e)]))

/-! ## Basic facts about the embedding -/

@[simp] theorem bind_run {α β : Type} (m : Go σ α) (f : α → Go σ β) (w : World σ) :
    (m >>= f) w = Go.bind m f w := rfl

@[simp] theorem pure_run {α : Type} (a : α) (w : World σ) :
    (pure a : Go σ α) w = (Outcome.ret a, w) := rfl

@[simp] theorem push_nil (w : World σ) : push w [] = w := by
  cases w; simp [push]

@[simp] theorem push_push (w : World σ) (a b : List Event) :
    push (push w a) b = push w (a ++ b) := by
  simp [push]

@[simp] theorem added_push (w : World σ) (evs : List Event) : added w (push w evs) = evs := by
  simp [added, push]

@[simp] theorem added_self (w : World σ) : added w w = [] := by
  simp [added]

@[simp] theorem push_logger (w : World σ) (evs : List Event) : (push w evs).logger = w.logger := rfl
@[simp] theorem push_env (w : World σ) (evs : List Event) : (push w evs).env = w.env := rfl
@[simp] theorem push_fs (w : World σ) (evs : List Event) : (push w evs).fs = w.fs := rfl
@[simp] theorem push_next (w : World σ) (evs : List Event) : (push w evs).next = w.next := rfl
@[simp] theorem push_trace (w : World σ) (evs : List Event) :
    (push w evs).trace = w.trace ++ evs := rfl

theorem primary_append (o : File) (a b : List Event) :
    primary o (a ++ b) = primary o a ++ primary o b := by
  induction a with
  | nil => rfl
  | cons e es ih =>
    cases e with
    | getenv k => simpa [primary] using ih
    | std line => simpa [primary] using ih
    | file o1 p line =>
      by_cases ho : o1 = o
      · simp [primary, ho, ih]
      · simp [primary, ho, ih]

theorem secondary_append (a b : List Event) :
    secondary (a ++ b) = secondary a ++ secondary b := by
  induction a with
  | nil => rfl
  | cons e es ih => cases e <;> simp [secondary, ih]

theorem reads_append (a b : List Event) : reads (a ++ b) = reads a ++ reads b := by
  induction a with
  | nil => rfl
  | cons e es ih => cases e <;> simp [reads, ih]

/-- A text that ends in a newline is written as it is. -/
theorem entry_newline (s : String) : log.entry (s ++ "\n") = s ++ "\n" := by
  have hlast : (s ++ "\n").data.getLast? = some (Char.ofNat 10) := by
    rw [String.data_append]
    exact List.getLast?_concat s.data
  simp only [log.entry]
  rw [if_pos hlast]

theorem Getenv_run (key : String) (w : World σ) :
    os.Getenv key w = (Outcome.ret (getenv w.env key), push w [Event.getenv key]) := rfl

theorem Printf_run (h : Host σ) (format : String) (a : List Value) (w : World σ) :
    log.Printf h format a w =
      (Outcome.ret (), push w [Event.std (log.entry (h.Sprintf format a))]) := rfl

/-- The entry for a tag, written out: the tag in brackets, then the message in double quotes. -/
theorem tagged_eq (tag s : String) :
    tagged tag s = "[" ++ tag ++ "] \"" ++ s ++ "\"\n" := by
  simp [tagged, String.append_assoc]

theorem emit_run (e : Event) (w : World σ) :
    emit e w = (Outcome.ret (), push w [e]) := rfl

theorem log_run (l : Logger) (s p : String) (w : World σ) :
    l.log s p w = (Outcome.ret (), push w [fileEvent l p s]) := by
  simp only [Logger.log, GoLog.Println, sprintfTag, entry_newline, emit_run, tagged, fileEvent]

theorem Sys_run (l : Logger) (s : String) (w : World σ) :
    l.Sys s w = (Outcome.ret (), push w (sysEvents l s)) := by
  unfold Logger.Sys sysEvents
  cases hb : l.SysLog
  · simp
  · simp [log.Println, entry_newline, emit_run]

theorem Trace_run (l : Logger) (s : String) (w : World σ) :
    l.Trace s w = (Outcome.ret (),
      push w (if logger.Trace ≤ l.Level then [fileEvent l "TRACE" s] else [])) := by
  unfold Logger.Trace
  by_cases hl : logger.Trace ≤ l.Level
  · simp [hl, log_run]
  · simp [hl]

theorem Debug_run (l : Logger) (s : String) (w : World σ) :
    l.Debug s w = (Outcome.ret (),
      push w (if logger.Debug ≤ l.Level then [fileEvent l "DEBUG" s] else [])) := by
  unfold Logger.Debug
  by_cases hl : logger.Debug ≤ l.Level
  · simp [hl, log_run]
  · simp [hl]

theorem Info_run (l : Logger) (s : String) (w : World σ) :
    l.Info s w = (Outcome.ret (),
      push w (if logger.Info ≤ l.Level then [fileEvent l "INFO" s] else [])) := by
  unfold Logger.Info
  by_cases hl : logger.Info ≤ l.Level
  · simp [hl, log_run]
  · simp [hl]

theorem Warning_run (l : Logger) (s : String) (w : World σ) :
    l.Warning s w = (Outcome.ret (),
      push w (sysEvents l s ++
        (if logger.Warning ≤ l.Level then [fileEvent l "WARN" s] else []))) := by
  unfold Logger.Warning
  by_cases hl : logger.Warning ≤ l.Level
  · simp [hl, log_run, Sys_run, Go.bind]
  · simp [hl, Sys_run, Go.bind]

theorem Error_run (l : Logger) (s : String) (w : World σ) :
    l.Error s w = (Outcome.ret (), push w (sysEvents l s ++ [fileEvent l "ERROR" s])) := by
  simp [Logger.Error, log_run, Sys_run, Go.bind]

theorem Panic_run (l : Logger) (s : String) (w : World σ) :
    l.Panic s w = (Outcome.panic s,
      push w (sysEvents l s ++ [fileEvent l "PANIC" s, Event.std (log.entry s)])) := by
  simp [Logger.Panic, log_run, Sys_run, Go.bind, log.Panic, push]

theorem Recover_run (h : Host σ) (l : Logger) (s : String) (w : World σ) :
    l.Recover h s w = (Outcome.ret (),
      push w (sysEvents l s ++ [fileEvent l "RECOVER" s] ++
        (if logger.Debug ≤ l.Level then
          [fileEvent l "DEBUG" (h.Sprintf "Panic was : %s" [Value.bytes h.Stack])] else []))) := by
  simp [Logger.Recover, Logger.Debugf, log_run, Sys_run, Debug_run, Go.bind]

theorem Fatal_run (l : Logger) (s : String) (w : World σ) :
    l.Fatal s w = (Outcome.exit 1,
      push w ([fileEvent l "FATAL" s] ++ sysEvents l s ++ [Event.std (log.entry s)])) := by
  simp [Logger.Fatal, log_run, Sys_run, Go.bind, log.Fatal, push]

theorem primary_fileEvent (l : Logger) (tag s : String) :
    primary l.Logger.out [fileEvent l tag s] = [tagged tag s] := by
  simp [primary, fileEvent]

theorem primary_sysEvents (o : File) (l : Logger) (s : String) :
    primary o (sysEvents l s) = [] := by
  unfold sysEvents
  cases l.SysLog <;> simp [primary]

theorem secondary_sysEvents (l : Logger) (s : String) :
    secondary (sysEvents l s) = if l.SysLog then [s ++ "\n"] else [] := by
  unfold sysEvents
  cases l.SysLog <;> simp [secondary]

theorem secondary_fileEvent (l : Logger) (tag s : String) :
    secondary [fileEvent l tag s] = [] := by
  simp [secondary, fileEvent]

theorem FsStep.pure {α : Type} {P : α → Prop} (a : α) (ha : P a) :
    FsStep P (pure a : Go σ α) := by
  intro w
  exact Or.inl ⟨a, w.fs, ha, rfl⟩

theorem FsStep.panic {α : Type} {P : α → Prop} (e : String) :
    FsStep P (log.Panic e : Go σ α) := by
  intro w
  exact Or.inr ⟨e, w.fs, rfl⟩

theorem FsStep.bind {α β : Type} {P : α → Prop} {Q : β → Prop} {m : Go σ α} {f : α → Go σ β}
    (hm : FsStep P m) (hf : ∀ a, P a → FsStep Q (f a)) : FsStep Q (m >>= f) := by
  intro w
  rcases hm w with ⟨a, fs1, ha, h1⟩ | ⟨e, fs1, h1⟩
  · rcases hf a ha { w with fs := fs1 } with ⟨b, fs2, hb, h2⟩ | ⟨e, fs2, h2⟩
    · exact Or.inl ⟨b, fs2, hb, by simp [Go.bind, h1, h2]⟩
    · exact Or.inr ⟨e, fs2, by simp [Go.bind, h1, h2, push]⟩
  · exact Or.inr ⟨e, fs1, by simp [Go.bind, h1]⟩

theorem FsStep.seq {α β : Type} {Q : β → Prop} {m : Go σ α} {f : α → Go σ β}
    (hm : FsStep (fun _ => True) m) (hf : ∀ a, FsStep Q (f a)) : FsStep Q (m >>= f) :=
  FsStep.bind hm (fun a _ => hf a)

theorem FsStep.stat (h : Host σ) (path : String) :
    FsStep (fun _ => True) (os.StatNotExist h path) := by
  intro w
  exact Or.inl ⟨_, w.fs, trivial, rfl⟩

theorem FsStep.mkdirAll (h : Host σ) (path : String) (perm : Nat) :
    FsStep (fun _ => True) (os.MkdirAll h path perm) := by
  intro w
  exact Or.inl ⟨_, _, trivial, rfl⟩

theorem FsStep.create (h : Host σ) (path : String) :
    FsStep (fun _ => True) (os.Create h path) := by
  intro w
  exact Or.inl ⟨_, _, trivial, rfl⟩

theorem FsStep.openFile (h : Host σ) (path : String) (flag perm : Nat) :
    FsStep (fun r => r.1 = File.mk path) (os.OpenFile h path flag perm) := by
  intro w
  exact Or.inl ⟨_, _, rfl, rfl⟩

theorem PrepareFile_step (h : Host σ) (f : String) :
    FsStep (fun i => i = File.mk f) (PrepareFile h f) := by
  unfold PrepareFile
  refine FsStep.seq ?_ (fun _ => FsStep.seq ?_ (fun _ => ?_))
  · refine FsStep.seq (FsStep.stat h _) (fun b => ?_)
    cases b
    · exact FsStep.pure _ trivial
    · refine FsStep.seq (FsStep.mkdirAll h _ _) (fun r => ?_)
      cases r with
      | none => exact FsStep.pure _ trivial
      | some e => exact FsStep.panic e
  · refine FsStep.seq (FsStep.stat h _) (fun b => ?_)
    cases b
    · exact FsStep.pure _ trivial
    · refine FsStep.seq (FsStep.create h _) (fun r => ?_)
      cases r with
      | none => exact FsStep.pure _ trivial
      | some e => exact FsStep.panic e
  · refine FsStep.bind (FsStep.openFile h f _ _) (fun r hr => ?_)
    rcases r with ⟨i, e⟩
    cases e with
    | none => exact FsStep.pure _ hr
    | some e => exact FsStep.panic e

theorem NewLogger_run (h : Host σ) (f p v : String) (b : Bool) (w : World σ) :
    NewLogger h f p v b w =
      match PrepareFile h f w with
      | (Outcome.ret i, w1) =>
        (Outcome.ret (built w1.next i p v b),
          push { w1 with next := w1.next + 1 }
            (if logger.Debug ≤ mapIndex logLevelLookup v then
              [fileEvent (built w1.next i p v b) "DEBUG" "New logger created"] else []))
      | (Outcome.panic e, w1) => (Outcome.panic e, w1)
      | (Outcome.exit c, w1) => (Outcome.exit c, w1) := by
  unfold NewLogger
  simp only [bind_run, Go.bind]
  rcases hp : PrepareFile h f w with ⟨o, w1⟩
  cases o with
  | ret i => simp [alloc, Debug_run, built, push]
  | panic e => rfl
  | exit c => rfl

theorem GetLoggerFromEnv_fresh (h : Host σ) (w : String) (n : Bool) (st : World σ)
    (hs : stale st.logger w n = true) :
    GetLoggerFromEnv h w n st =
      match NewLogger h (envFile (getenv st.env (w ++ "LOG_FILE")))
          (getenv st.env (w ++ "LOG_PREFIX")) (envLevel (getenv st.env (w ++ "LOG_LEVEL")))
          (envSysLog h (getenv st.env (w ++ "LOG_SYSLOG"))) (push st (configEvents h st.env w)) with
      | (Outcome.ret c, st1) =>
        (Outcome.ret (some { c with EnvPrefix := w }),
          { st1 with logger := some { c with EnvPrefix := w } })
      | (Outcome.panic e, st1) => (Outcome.panic e, st1)
      | (Outcome.exit c, st1) => (Outcome.exit c, st1) := by
  unfold GetLoggerFromEnv
  simp only [bind_run, Go.bind, getLogger]
  unfold stale at hs
  simp only [hs, if_true]
  simp only [bind_run, Go.bind, Getenv_run, push_env]
  rcases hpb : (strconv.ParseBool h (getenv st.env (w ++ "LOG_SYSLOG"))).2 with _ | e <;>
  by_cases hf : (getenv st.env (w ++ "LOG_FILE")).utf8ByteSize < 3 <;>
  cases hl : mapHas logLevelLookup (getenv st.env (w ++ "LOG_LEVEL")) <;>
  simp only [bind_run, Go.bind, Getenv_run, Printf_run, pure_run, push_env, push_push, envFile,
    envLevel, envSysLog, configEvents, sysLogWarnings, fileWarnings, levelWarnings, hpb, hf, hl,
    if_true, if_false, Bool.not_false, Bool.not_true, List.append_assoc, List.cons_append,
    List.nil_append, List.append_nil, Bool.false_eq_true]
  all_goals (split <;> simp_all [setLogger, getLogger])

theorem wrote_eq {α : Type} (l : Logger) (m : Go σ α) (w : World σ) (o : Outcome α)
    (evs : List Event) (hm : m w = (o, push w evs)) :
    wrote l m w = primary l.Logger.out evs := by
  simp [wrote, hm]

theorem sysWrote_eq {α : Type} (m : Go σ α) (w : World σ) (o : Outcome α)
    (evs : List Event) (hm : m w = (o, push w evs)) :
    sysWrote m w = secondary evs := by
  simp [sysWrote, hm]

theorem NewLogger_ret (h : Host σ) (f p v : String) (b : Bool) (w : World σ) (c : Logger)
    (w1 : World σ) (hN : NewLogger h f p v b w = (Outcome.ret c, w1)) :
    c = built w.next (File.mk f) p v b ∧
    ∃ fs1, PrepareFile h f w = (Outcome.ret (File.mk f), { w with fs := fs1 }) ∧
      w1 = push { w with fs := fs1, next := w.next + 1 }
        (if logger.Debug ≤ mapIndex logLevelLookup v then
          [fileEvent (built w.next (File.mk f) p v b) "DEBUG" "New logger created"] else []) := by
  rw [NewLogger_run] at hN
  rcases PrepareFile_step h f w with ⟨i, fs1, hi, hp⟩ | ⟨e, fs1, hp⟩
  · rw [hp] at hN
    simp only [Prod.mk.injEq, Outcome.ret.injEq] at hN
    subst hi
    exact ⟨hN.1.symm, fs1, hp, hN.2.symm⟩
  · rw [hp] at hN
    simp at hN

theorem NewLogger_of_prepared (h : Host σ) (f p v : String) (b : Bool) (w : World σ) (i : File)
    (w1 : World σ) (hp : PrepareFile h f w = (Outcome.ret i, w1)) :
    NewLogger h f p v b w =
      (Outcome.ret (built w.next (File.mk f) p v b),
        push { w1 with next := w.next + 1 }
          (if logger.Debug ≤ mapIndex logLevelLookup v then
            [fileEvent (built w.next (File.mk f) p v b) "DEBUG" "New logger created"] else [])) := by
  rcases PrepareFile_step h f w with ⟨j, fs1, hj, hq⟩ | ⟨e, fs1, hq⟩
  · rw [hq] at hp
    simp only [Prod.mk.injEq, Outcome.ret.injEq] at hp
    rw [NewLogger_run, hq]
    subst hj
    simp [← hp.2]
  · rw [hq] at hp
    simp at hp

theorem NewLogger_of_failed (h : Host σ) (f p v : String) (b : Bool) (w : World σ) (e : String)
    (w1 : World σ) (hp : PrepareFile h f w = (Outcome.panic e, w1)) :
    NewLogger h f p v b w = (Outcome.panic e, w1) := by
  rw [NewLogger_run, hp]

theorem envFile_eq_spec (v : String) : envFile v = specFile v := by
  unfold envFile specFile
  by_cases hv : v.utf8ByteSize < 3
  · rw [if_pos hv, if_neg (by omega)]
  · rw [if_neg hv, if_pos (by omega)]

theorem lookup_other (v : String) (h1 : v ≠ "trace") (h2 : v ≠ "debug") (h3 : v ≠ "info")
    (h4 : v ≠ "warning") (h5 : v ≠ "error") : logLevelLookup.lookup v = none := by
  have e1 : (v == "trace") = false := by simpa using h1
  have e2 : (v == "debug") = false := by simpa using h2
  have e3 : (v == "info") = false := by simpa using h3
  have e4 : (v == "warning") = false := by simpa using h4
  have e5 : (v == "error") = false := by simpa using h5
  simp [logLevelLookup, List.lookup, e1, e2, e3, e4, e5]

theorem envLevel_eq_spec (v : String) : mapIndex logLevelLookup (envLevel v) = specLevel v := by
  by_cases h1 : v = "trace"
  · subst h1; rfl
  by_cases h2 : v = "debug"
  · subst h2; rfl
  by_cases h3 : v = "info"
  · subst h3; rfl
  by_cases h4 : v = "warning"
  · subst h4; rfl
  by_cases h5 : v = "error"
  · subst h5; rfl
  have hl : envLevel v = "info" := by
    simp [envLevel, mapHas, lookup_other v h1 h2 h3 h4 h5]
  rw [hl]
  simp [specLevel, h1, h2, h3, h4, h5]
  rfl

theorem envSysLog_eq_spec (h : Host σ) (v : String) : envSysLog h v = specSysLog v := by
  unfold envSysLog specSysLog specParse strconv.ParseBool
  by_cases h1 : v = "1" ∨ v = "t" ∨ v = "T" ∨ v = "TRUE" ∨ v = "true" ∨ v = "True"
  · simp [h1]
  · by_cases h2 : v = "0" ∨ v = "f" ∨ v = "F" ∨ v = "FALSE" ∨ v = "false" ∨ v = "False"
    · simp [h1, h2]
    · simp [h1, h2]

theorem specLevel_range (v : String) : Error ≤ specLevel v ∧ specLevel v ≤ Trace := by
  unfold specLevel
  split_ifs <;> decide

theorem stale_iff (cache : Option Logger) (w : String) (n : Bool) :
    stale cache w n = true ↔
      (n = true ∨ cache = none ∨ ∃ c, cache = some c ∧ c.EnvPrefix ≠ w) := by
  cases cache <;> cases n <;> simp [stale]

theorem reads_configEvents (h : Host σ) (env : List (String × String)) (w : String) :
    reads (configEvents h env w) =
      [w ++ "LOG_SYSLOG", w ++ "LOG_FILE", w ++ "LOG_LEVEL", w ++ "LOG_PREFIX"] := by
  have h1 : ∀ v, reads (sysLogWarnings h w v) = [] := by
    intro v
    unfold sysLogWarnings
    split <;> simp [reads]
  have h2 : ∀ v, reads (fileWarnings h w v) = [] := by
    intro v
    unfold fileWarnings
    split <;> simp [reads]
  have h3 : ∀ v, reads (levelWarnings h w v) = [] := by
    intro v
    unfold levelWarnings
    split <;> simp [reads]
  simp [configEvents, reads_append, h1, h2, h3, reads]

theorem GetLoggerFromEnv_cached (h : Host σ) (w : String) (n : Bool) (st : World σ)
    (hs : stale st.logger w n = false) :
    GetLoggerFromEnv h w n st = (Outcome.ret st.logger, st) := by
  unfold GetLoggerFromEnv
  simp only [bind_run, Go.bind, getLogger]
  unfold stale at hs
  simp only [hs, Bool.false_eq_true, if_false, bind_run, Go.bind, pure_run, getLogger]

theorem GetLoggerFromEnv_built (h : Host σ) (w : String) (n : Bool) (st : World σ)
    (hs : stale st.logger w n = true) (i : File) (st1 : World σ)
    (hp : PrepareFile h (envFile (getenv st.env (w ++ "LOG_FILE")))
      (push st (configEvents h st.env w)) = (Outcome.ret i, st1)) :
    GetLoggerFromEnv h w n st =
      (Outcome.ret (some (resolved h st w)),
        { push { st1 with next := st.next + 1 }
            (if logger.Debug ≤ (resolved h st w).Level then
              [fileEvent (resolved h st w) "DEBUG" "New logger created"] else []) with
          logger := some (resolved h st w) }) := by
  rw [GetLoggerFromEnv_fresh h w n st hs, NewLogger_of_prepared h _ _ _ _ _ i st1 hp]
  simp [resolved, built, fileEvent, push]

theorem GetLoggerFromEnv_failed (h : Host σ) (w : String) (n : Bool) (st : World σ)
    (hs : stale st.logger w n = true) (e : String) (st1 : World σ)
    (hp : PrepareFile h (envFile (getenv st.env (w ++ "LOG_FILE")))
      (push st (configEvents h st.env w)) = (Outcome.panic e, st1)) :
    GetLoggerFromEnv h w n st = (Outcome.panic e, st1) := by
  rw [GetLoggerFromEnv_fresh h w n st hs, NewLogger_of_failed h _ _ _ _ _ e st1 hp]

theorem PrepareFile_ret (h : Host σ) (f : String) (w : World σ) (i : File) (w1 : World σ)
    (hp : PrepareFile h f w = (Outcome.ret i, w1)) :
    i = File.mk f ∧ ∃ fs1, w1 = { w with fs := fs1 } := by
  rcases PrepareFile_step h f w with ⟨j, fs1, hj, hq⟩ | ⟨e, fs1, hq⟩
  · rw [hq] at hp
    simp only [Prod.mk.injEq, Outcome.ret.injEq] at hp
    exact ⟨hp.1 ▸ hj, fs1, hp.2.symm⟩
  · rw [hq] at hp
    simp at hp

theorem PrepareFile_panic (h : Host σ) (f : String) (w : World σ) (e : String) (w1 : World σ)
    (hp : PrepareFile h f w = (Outcome.panic e, w1)) :
    ∃ fs1, w1 = push { w with fs := fs1 } [Event.std (log.entry e)] := by
  rcases PrepareFile_step h f w with ⟨j, fs1, hj, hq⟩ | ⟨e1, fs1, hq⟩
  · rw [hq] at hp
    simp at hp
  · rw [hq] at hp
    simp only [Prod.mk.injEq, Outcome.panic.injEq] at hp
    exact ⟨fs1, by rw [← hp.2, hp.1]⟩

theorem PrepareFile_total (h : Host σ) (f : String) (w : World σ) :
    (∃ i w1, PrepareFile h f w = (Outcome.ret i, w1)) ∨
    (∃ e w1, PrepareFile h f w = (Outcome.panic e, w1)) := by
  rcases PrepareFile_step h f w with ⟨j, fs1, -, hq⟩ | ⟨e1, fs1, hq⟩
  · exact Or.inl ⟨j, _, hq⟩
  · exact Or.inr ⟨e1, _, hq⟩

theorem call_congr (h : Host σ) (l k : Logger) (hL : l.Logger = k.Logger)
    (hS : l.SysLog = k.SysLog) (hl : l.Level < Warning) (hk : k.Level < Warning) (c : Call)
    (w : World σ) : l.call h c w = k.call h c w := by
  have l2 : ¬ Warning ≤ l.Level := not_le.mpr hl
  have k2 : ¬ Warning ≤ k.Level := not_le.mpr hk
  have l3 : ¬ Info ≤ l.Level := not_le.mpr (lt_trans hl (by decide))
  have k3 : ¬ Info ≤ k.Level := not_le.mpr (lt_trans hk (by decide))
  have l4 : ¬ Debug ≤ l.Level := not_le.mpr (lt_trans hl (by decide))
  have k4 : ¬ Debug ≤ k.Level := not_le.mpr (lt_trans hk (by decide))
  have l5 : ¬ Trace ≤ l.Level := not_le.mpr (lt_trans hl (by decide))
  have k5 : ¬ Trace ≤ k.Level := not_le.mpr (lt_trans hk (by decide))
  have hsys : ∀ s, sysEvents l s = sysEvents k s := by
    intro s
    simp [sysEvents, hS]
  have hfile : ∀ tag s, fileEvent l tag s = fileEvent k tag s := by
    intro tag s
    simp [fileEvent, hL]
  cases c
  case Warninge e s a =>
    cases e <;> simp [Logger.call, Logger.Warninge, Logger.Warningf, Warning_run, l2, k2, hsys]
  case Errore e s a =>
    cases e <;> simp [Logger.call, Logger.Errore, Logger.Errorf, Error_run, hsys, hfile]
  case Panice e s a =>
    cases e <;> simp [Logger.call, Logger.Panice, Logger.Panicf, Panic_run, hsys, hfile]
  case Fatale e s a =>
    cases e <;> simp [Logger.call, Logger.Fatale, Logger.Fatalf, Fatal_run, hsys, hfile]
  all_goals
    simp [Logger.call, Logger.Tracef, Logger.Debugf, Logger.Infof, Logger.Warningf,
      Logger.Errorf, Logger.Panicf, Logger.Recoverf, Logger.Fatalf, Logger.Sysf, Trace_run,
      Debug_run, Info_run, Warning_run, Error_run, Panic_run, Recover_run, Fatal_run, Sys_run,
      l2, k2, l3, k3, l4, k4, l5, k5, hsys, hfile]

/-! ## The claims -/

/-- C1: with the levels ordered Error < Warning < Info < Debug < Trace, each of
Trace, Debug, Info and Warning returns normally and writes to the logger's
file exactly the one entry `[TAG] "s"` (TAG = TRACE, DEBUG, INFO, WARN) when
the threshold is at least its own level, and nothing when the threshold is
below it. -/
theorem C1_filtered_entry_points (l : Logger) (s : String) (w : World σ) :
    (Error < Warning ∧ Warning < Info ∧ Info < Debug ∧ Debug < Trace) ∧
    ((l.Trace s w).1 = Outcome.ret () ∧
      wrote l (l.Trace s) w = if Trace ≤ l.Level then ["[TRACE] \"" ++ s ++ "\"\n"] else []) ∧
    ((l.Debug s w).1 = Outcome.ret () ∧
      wrote l (l.Debug s) w = if Debug ≤ l.Level then ["[DEBUG] \"" ++ s ++ "\"\n"] else []) ∧
    ((l.Info s w).1 = Outcome.ret () ∧
      wrote l (l.Info s) w = if Info ≤ l.Level then ["[INFO] \"" ++ s ++ "\"\n"] else []) ∧
    ((l.Warning s w).1 = Outcome.ret () ∧
      wrote l (l.Warning s) w = if Warning ≤ l.Level then ["[WARN] \"" ++ s ++ "\"\n"] else []) := by
  refine ⟨by decide, ⟨?_, ?_⟩, ⟨?_, ?_⟩, ⟨?_, ?_⟩, ⟨?_, ?_⟩⟩
  · rw [Trace_run]
  · rw [wrote_eq l _ w _ _ (Trace_run l s w)]
    split <;> simp [primary, fileEvent, tagged_eq]
  · rw [Debug_run]
  · rw [wrote_eq l _ w _ _ (Debug_run l s w)]
    split <;> simp [primary, fileEvent, tagged_eq]
  · rw [Info_run]
  · rw [wrote_eq l _ w _ _ (Info_run l s w)]
    split <;> simp [primary, fileEvent, tagged_eq]
  · rw [Warning_run]
  · rw [wrote_eq l _ w _ _ (Warning_run l s w), primary_append, primary_sysEvents]
    split <;> simp [primary, fileEvent, tagged_eq]

/-- C2: Error is never filtered.  Whatever the threshold and the
secondary-sink flag, `Error(s)` returns normally and writes to the logger's
file exactly one entry, `[ERROR] "s"` with `s` as it is; this holds in
particular for a logger that `NewLogger` built from the level name
"warning", whose threshold is Warning and on which `Info` writes nothing. -/
theorem C2_error_never_filtered (h : Host σ) (l : Logger) (s : String) (w : World σ) :
    (l.Error s w).1 = Outcome.ret () ∧
    wrote l (l.Error s) w = ["[ERROR] \"" ++ s ++ "\"\n"] ∧
    added w (l.Error s w).2 =
      sysEvents l s ++ [Event.file l.Logger.out l.Logger.pre ("[ERROR] \"" ++ s ++ "\"\n")] ∧
    (∀ (f p : String) (b : Bool) (st st1 : World σ) (c : Logger),
      NewLogger h f p "warning" b st = (Outcome.ret c, st1) →
        c.Level = Warning ∧ c.Logger.pre = p ∧ c.Logger.out = File.mk f ∧
        wrote c (c.Info s) st1 = [] ∧
        (c.Error s st1).1 = Outcome.ret () ∧
        wrote c (c.Error s) st1 = ["[ERROR] \"" ++ s ++ "\"\n"]) := by
  have herr : ∀ (c : Logger) (v : World σ), (c.Error s v).1 = Outcome.ret () ∧
      wrote c (c.Error s) v = ["[ERROR] \"" ++ s ++ "\"\n"] := by
    intro c v
    refine ⟨by rw [Error_run], ?_⟩
    rw [wrote_eq c _ v _ _ (Error_run c s v), primary_append, primary_sysEvents]
    simp [primary, fileEvent, tagged_eq]
  refine ⟨(herr l w).1, (herr l w).2, ?_, ?_⟩
  · rw [Error_run, added_push]
    simp [fileEvent, tagged_eq]
  · intro f p b st st1 c hN
    obtain ⟨hc, -⟩ := NewLogger_ret h f p "warning" b st c st1 hN
    have hlv : c.Level = Warning := by rw [hc]; rfl
    refine ⟨hlv, by rw [hc]; rfl, by rw [hc]; rfl, ?_, (herr c st1).1, (herr c st1).2⟩
    rw [wrote_eq c _ st1 _ _ (Info_run c s st1), hlv]
    simp [Warning, Info, primary]

/-- C2, end to end: on the logger built by
`NewLogger("/tmp/x.log", "app: ", "warning", false)`, `Info("hello")` writes
nothing and `Error("say \"boom\"")` writes the one entry, quotes unescaped,
under the prefix `app: `. -/
theorem C2_error_never_filtered_witness :
    NewLogger demoHost "/tmp/x.log" "app: " "warning" false (demoWorld []) =
      (Outcome.ret (demoLogger Warning false),
        { demoWorld [] with
          fs := { demoDisk with paths := "/tmp/x.log" :: demoDisk.paths }, next := 1 }) ∧
    wrote (demoLogger Warning false) ((demoLogger Warning false).Error "say \"boom\"")
      (demoWorld []) = ["[ERROR] \"say \"boom\"\"\n"] ∧
    added (demoWorld []) ((demoLogger Warning false).Error "say \"boom\"" (demoWorld [])).2 =
      [Event.file (File.mk "/tmp/x.log") "app: " "[ERROR] \"say \"boom\"\"\n"] :=
  ⟨by rfl,
    (C2_error_never_filtered demoHost (demoLogger Warning false) "say \"boom\"" (demoWorld [])).2.1,
    (C2_error_never_filtered demoHost (demoLogger Warning false) "say \"boom\""
      (demoWorld [])).2.2.1⟩

/-- C3, as amended: Warning is filtered like the entry points below it.
`Warning(s)` returns normally and writes the one entry `[WARN] "s"` to the
logger's file exactly when the threshold is at least Warning (Warning, Info,
Debug or Trace); under a threshold below Warning, such as Error, it writes
nothing there. -/
theorem C3_warning_filtered (l : Logger) (s : String) (w : World σ) :
    (l.Warning s w).1 = Outcome.ret () ∧
    (wrote l (l.Warning s) w ≠ [] ↔ Warning ≤ l.Level) ∧
    (Warning ≤ l.Level → wrote l (l.Warning s) w = ["[WARN] \"" ++ s ++ "\"\n"]) ∧
    (l.Level < Warning → wrote l (l.Warning s) w = []) ∧
    (l.Level = Error → wrote l (l.Warning s) w = []) := by
  have hw : wrote l (l.Warning s) w =
      if Warning ≤ l.Level then ["[WARN] \"" ++ s ++ "\"\n"] else [] := by
    rw [wrote_eq l _ w _ _ (Warning_run l s w), primary_append, primary_sysEvents]
    split <;> simp [primary, fileEvent, tagged_eq]
  refine ⟨by rw [Warning_run], ?_, ?_, ?_, ?_⟩
  · rw [hw]
    by_cases hl : Warning ≤ l.Level <;> simp [hl]
  · intro hl
    rw [hw, if_pos hl]
  · intro hl
    rw [hw, if_neg (not_le.mpr hl)]
  · intro hl
    rw [hw, hl]
    simp [Warning, Error]

/-- C3, witness: at threshold Info the entry is written. -/
theorem C3_warning_filtered_witness :
    wrote (demoLogger Info false) ((demoLogger Info false).Warning "test warning")
      (demoWorld []) = ["[WARN] \"test warning\"\n"] :=
  (C3_warning_filtered (demoLogger Info false) "test warning" (demoWorld [])).2.2.1 (by decide)

/-- C3, counterexample: on a logger whose threshold is Error, the call
`Warning("test warning")` returns and has written nothing to the logger's file. -/
theorem C3_warning_counterexample :
    (demoLogger Error false).Warning "test warning" (demoWorld []) =
      (Outcome.ret (), demoWorld []) ∧
    wrote (demoLogger Error false) ((demoLogger Error false).Warning "test warning")
      (demoWorld []) = [] :=
  ⟨by rfl, by rfl⟩

/-- C4: a conditional variant called with a nil error returns normally and
leaves the world as it was (nothing written to either sink, no state changed,
no panic, no exit); called with a non-nil error it is the formatted variant
called with the same template and operands. -/
theorem C4_conditional_variants (h : Host σ) (l : Logger) (s : String) (a : List Value)
    (w : World σ) :
    (l.Warninge h none s a w = (Outcome.ret (), w) ∧
      l.Errore h none s a w = (Outcome.ret (), w) ∧
      l.Panice h none s a w = (Outcome.ret (), w) ∧
      l.Fatale h none s a w = (Outcome.ret (), w)) ∧
    (∀ e : String,
      l.Warninge h (some e) s a w = l.Warningf h s a w ∧
      l.Errore h (some e) s a w = l.Errorf h s a w ∧
      l.Panice h (some e) s a w = l.Panicf h s a w ∧
      l.Fatale h (some e) s a w = l.Fatalf h s a w) := by
  refine ⟨⟨?_, ?_, ?_, ?_⟩, fun e => ⟨?_, ?_, ?_, ?_⟩⟩ <;>
  simp [Logger.Warninge, Logger.Errore, Logger.Panice, Logger.Fatale]

/-- C5, as amended: Warning, Error and Recover write to the standard logger if
and only if the secondary-sink flag is true, then exactly the message, and
nothing with the flag false.  Fatal forwards under the same flag, but it ends
with `log.Fatal`, which prints the message on the standard logger whatever the
flag: Fatal writes one entry there with the flag false and two with the flag
true.  The threshold has no influence on any of this. -/
theorem C5_secondary_sink (h : Host σ) (l : Logger) (s : String) (w : World σ) :
    sysWrote (l.Warning s) w = (if l.SysLog then [s ++ "\n"] else []) ∧
    sysWrote (l.Error s) w = (if l.SysLog then [s ++ "\n"] else []) ∧
    sysWrote (l.Recover h s) w = (if l.SysLog then [s ++ "\n"] else []) ∧
    sysWrote (l.Fatal s) w = (if l.SysLog then [s ++ "\n"] else []) ++ [log.entry s] ∧
    (l.Fatal s w).1 = Outcome.exit 1 := by
  refine ⟨?_, ?_, ?_, ?_, by rw [Fatal_run]⟩
  · rw [sysWrote_eq _ w _ _ (Warning_run l s w), secondary_append, secondary_sysEvents]
    by_cases hl : Warning ≤ l.Level <;> simp [hl, secondary, fileEvent]
  · rw [sysWrote_eq _ w _ _ (Error_run l s w), secondary_append, secondary_sysEvents]
    simp [secondary, fileEvent]
  · rw [sysWrote_eq _ w _ _ (Recover_run h l s w), secondary_append, secondary_append,
      secondary_sysEvents]
    by_cases hl : Debug ≤ l.Level <;> simp [hl, secondary, fileEvent]
  · rw [sysWrote_eq _ w _ _ (Fatal_run l s w), secondary_append, secondary_append,
      secondary_sysEvents]
    simp [secondary, fileEvent]

/-- C5, counterexample: on a logger whose secondary-sink flag is false,
`Fatal("disk full")` writes the entry `disk full` on the standard logger
before the process exits. -/
theorem C5_fatal_counterexample :
    (demoLogger Info false).SysLog = false ∧
    sysWrote ((demoLogger Info false).Fatal "disk full") (demoWorld []) = ["disk full\n"] ∧
    ((demoLogger Info false).Fatal "disk full" (demoWorld [])).1 = Outcome.exit 1 :=
  ⟨by rfl, by rfl, by rfl⟩

/-- C6: when the cache already holds a logger recorded under the prefix `w`,
`GetLoggerFromEnv(w, false)` returns that very instance and leaves the world
as it was (cache unchanged, no variable read, no logger allocated); called
again after the environment has been replaced by any other one, it does the
same. -/
theorem C6_idempotent_configuration (h : Host σ) (w : String) (st : World σ) (c : Logger)
    (env2 : List (String × String)) (hc : st.logger = some c) (hw : c.EnvPrefix = w) :
    GetLoggerFromEnv h w false st = (Outcome.ret (some c), st) ∧
    GetLoggerFromEnv h w false { (GetLoggerFromEnv h w false st).2 with env := env2 } =
      (Outcome.ret (some c), { st with env := env2 }) ∧
    reads (added st (GetLoggerFromEnv h w false st).2) = [] ∧
    reads (added st
      (GetLoggerFromEnv h w false { (GetLoggerFromEnv h w false st).2 with env := env2 }).2) = [] ∧
    (GetLoggerFromEnv h w false { (GetLoggerFromEnv h w false st).2 with env := env2 }).2.next =
      st.next := by
  have hfix : ∀ v : World σ, v.logger = some c →
      GetLoggerFromEnv h w false v = (Outcome.ret (some c), v) := by
    intro v hv
    have hs : stale v.logger w false = false := by
      simp [stale, hv, hw]
    rw [GetLoggerFromEnv_cached h w false v hs, hv]
  have h1 := hfix st hc
  have h2 := hfix { st with env := env2 } hc
  rw [h1]
  refine ⟨rfl, h2, by simp [reads], ?_, ?_⟩
  · rw [h2]
    simp [added, reads]
  · rw [h2]

/-- C6, witness: the cache holds the logger recorded under the empty prefix;
the variables `LOG_LEVEL` and `LOG_FILE` change between the two calls. -/
theorem C6_idempotent_configuration_witness :
    GetLoggerFromEnv demoHost "" false (demoCached [("LOG_LEVEL", "debug")] (demoLogger Info false)) =
      (Outcome.ret (some (demoLogger Info false)),
        demoCached [("LOG_LEVEL", "debug")] (demoLogger Info false)) ∧
    GetLoggerFromEnv demoHost "" false
      (demoCached [("LOG_LEVEL", "trace"), ("LOG_FILE", "/tmp/other.log")]
        (demoLogger Info false)) =
      (Outcome.ret (some (demoLogger Info false)),
        demoCached [("LOG_LEVEL", "trace"), ("LOG_FILE", "/tmp/other.log")]
          (demoLogger Info false)) :=
  ⟨(C6_idempotent_configuration demoHost "" (demoCached [("LOG_LEVEL", "debug")]
      (demoLogger Info false)) (demoLogger Info false)
      [("LOG_LEVEL", "trace"), ("LOG_FILE", "/tmp/other.log")] rfl rfl).1,
    (C6_idempotent_configuration demoHost "" (demoCached [("LOG_LEVEL", "debug")]
      (demoLogger Info false)) (demoLogger Info false)
      [("LOG_LEVEL", "trace"), ("LOG_FILE", "/tmp/other.log")] rfl rfl).2.1⟩

/-- C7, as amended: if force is true, or the cache is empty, or the cached
logger is recorded under another prefix, `GetLoggerFromEnv(w, force)` reads
the four variables `{w}LOG_SYSLOG`, `{w}LOG_FILE`, `{w}LOG_LEVEL`,
`{w}LOG_PREFIX`, in this order, and prepares the resolved destination.  When
the preparation succeeds, the call allocates a new logger from the resolved
values, records `w` as its prefix, puts it in the cache and returns it; when
it fails, the call panics with the error and the cache is left as it was.
After any call that returns, the cached logger is the one returned and its
recorded prefix is `w`. -/
theorem C7_reconstruction (h : Host σ) (w : String) (n : Bool) (st : World σ) :
    ((n = true ∨ st.logger = none ∨ ∃ c, st.logger = some c ∧ c.EnvPrefix ≠ w) →
      reads (added st (GetLoggerFromEnv h w n st).2) =
        [w ++ "LOG_SYSLOG", w ++ "LOG_FILE", w ++ "LOG_LEVEL", w ++ "LOG_PREFIX"] ∧
      (∀ (i : File) (st1 : World σ),
        PrepareFile h (envFile (getenv st.env (w ++ "LOG_FILE")))
          (push st (configEvents h st.env w)) = (Outcome.ret i, st1) →
        (GetLoggerFromEnv h w n st).1 = Outcome.ret (some (resolved h st w)) ∧
        (GetLoggerFromEnv h w n st).2.logger = some (resolved h st w) ∧
        (resolved h st w).EnvPrefix = w ∧
        (resolved h st w).addr = st.next ∧
        (GetLoggerFromEnv h w n st).2.next = st.next + 1) ∧
      (∀ (e : String) (st1 : World σ),
        PrepareFile h (envFile (getenv st.env (w ++ "LOG_FILE")))
          (push st (configEvents h st.env w)) = (Outcome.panic e, st1) →
        GetLoggerFromEnv h w n st = (Outcome.panic e, st1) ∧
        st1.logger = st.logger ∧ st1.next = st.next)) ∧
    (∀ (o : Option Logger) (st1 : World σ),
      GetLoggerFromEnv h w n st = (Outcome.ret o, st1) →
        ∃ c, o = some c ∧ st1.logger = some c ∧ c.EnvPrefix = w) := by
  constructor
  · intro hcond
    have hs : stale st.logger w n = true := (stale_iff st.logger w n).mpr hcond
    refine ⟨?_, ?_, ?_⟩
    · rcases PrepareFile_total h (envFile (getenv st.env (w ++ "LOG_FILE")))
        (push st (configEvents h st.env w)) with ⟨i, st1, hp⟩ | ⟨e, st1, hp⟩
      · obtain ⟨-, fs1, hst1⟩ := PrepareFile_ret h _ _ i st1 hp
        rw [GetLoggerFromEnv_built h w n st hs i st1 hp, hst1]
        have ha : ∀ evs : List Event, added st
            { push { ({ push st (configEvents h st.env w) with fs := fs1 } : World σ) with
                next := st.next + 1 } evs with logger := some (resolved h st w) } =
            configEvents h st.env w ++ evs := by
          intro evs
          simp only [added, push, List.append_assoc, List.drop_left]
        rw [ha, reads_append, reads_configEvents]
        by_cases hd : logger.Debug ≤ (resolved h st w).Level <;>
        simp [hd, reads, fileEvent]
      · obtain ⟨fs1, hst1⟩ := PrepareFile_panic h _ _ e st1 hp
        rw [GetLoggerFromEnv_failed h w n st hs e st1 hp, hst1]
        have ha : added st
            (push ({ push st (configEvents h st.env w) with fs := fs1 } : World σ)
              [Event.std (log.entry e)]) =
            configEvents h st.env w ++ [Event.std (log.entry e)] := by
          simp only [added, push, List.append_assoc, List.drop_left]
        rw [ha, reads_append, reads_configEvents]
        simp [reads]
    · intro i st1 hp
      rw [GetLoggerFromEnv_built h w n st hs i st1 hp]
      exact ⟨rfl, rfl, rfl, rfl, rfl⟩
    · intro e st1 hp
      obtain ⟨fs1, hst1⟩ := PrepareFile_panic h _ _ e st1 hp
      refine ⟨GetLoggerFromEnv_failed h w n st hs e st1 hp, ?_, ?_⟩ <;> rw [hst1] <;> rfl
  · intro o st1 hg
    cases hs : stale st.logger w n
    · rw [GetLoggerFromEnv_cached h w n st hs] at hg
      simp only [Prod.mk.injEq, Outcome.ret.injEq] at hg
      obtain ⟨ho, hst⟩ := hg
      subst hst
      subst ho
      cases hl : st.logger with
      | none => simp [stale, hl] at hs
      | some c =>
        refine ⟨c, rfl, rfl, ?_⟩
        simp [stale, hl] at hs
        exact hs.2
    · rcases PrepareFile_total h (envFile (getenv st.env (w ++ "LOG_FILE")))
        (push st (configEvents h st.env w)) with ⟨i, st2, hp⟩ | ⟨e, st2, hp⟩
      · rw [GetLoggerFromEnv_built h w n st hs i st2 hp] at hg
        simp only [Prod.mk.injEq, Outcome.ret.injEq] at hg
        obtain ⟨ho, hst⟩ := hg
        exact ⟨resolved h st w, ho.symm, by rw [← hst], rfl⟩
      · rw [GetLoggerFromEnv_failed h w n st hs e st2 hp] at hg
        simp at hg

/-- C7, witness: the forced call of `InitTestLog`, made while the cache holds
another logger, returns a new one built from the four `TEST_` variables. -/
theorem C7_reconstruction_witness :
    (GetLoggerFromEnv demoHost "TEST_" true (demoCached demoTestEnv demoLoggerA)).1 =
      Outcome.ret (some
        { addr := 1, EnvPrefix := "TEST_",
          Logger := log.New (File.mk "/dev/stdout") "test -- " 7, Level := Trace,
          SysLog := true }) ∧
    (GetLoggerFromEnv demoHost "TEST_" true (demoCached demoTestEnv demoLoggerA)).2.next = 2 :=
  ⟨(((C7_reconstruction demoHost "TEST_" true (demoCached demoTestEnv demoLoggerA)).1
      (Or.inl rfl)).2.1 (File.mk "/dev/stdout")
      (push (demoCached demoTestEnv demoLoggerA)
        (configEvents demoHost demoTestEnv "TEST_")) rfl).1,
    (((C7_reconstruction demoHost "TEST_" true (demoCached demoTestEnv demoLoggerA)).1
      (Or.inl rfl)).2.1 (File.mk "/dev/stdout")
      (push (demoCached demoTestEnv demoLoggerA)
        (configEvents demoHost demoTestEnv "TEST_")) rfl).2.2.2.2⟩

/-- C7, counterexample: the cache holds a logger recorded under `A_`, and
`B_LOG_FILE` names a file that cannot be opened.  `GetLoggerFromEnv("B_",
false)` panics with the error of `os.OpenFile`; no logger is returned and the
cached logger is still the one recorded under `A_`. -/
theorem C7_reconstruction_counterexample :
    (GetLoggerFromEnv demoHost "B_" false
      (demoCached [("B_LOG_FILE", "/root/app.log")] demoLoggerA)).1 =
        Outcome.panic "open /root/app.log: permission denied" ∧
    (GetLoggerFromEnv demoHost "B_" false
      (demoCached [("B_LOG_FILE", "/root/app.log")] demoLoggerA)).2.logger = some demoLoggerA ∧
    demoLoggerA.EnvPrefix = "A_" ∧ demoLoggerA.EnvPrefix ≠ "B_" :=
  ⟨by rfl, by rfl, by rfl, by decide⟩

/-- C8, as amended: whenever `GetLoggerFromEnv` reconstructs, the logger it
returns has the parameters of the specification: the destination is the value
of `{w}LOG_FILE` if its length is at least 3 and standard output otherwise,
the threshold is the level named by `{w}LOG_LEVEL` if that is one of the five
names and Info otherwise, the secondary-sink flag is the parsed boolean of
`{w}LOG_SYSLOG` if it parses and false otherwise.  So "" gives standard
output, "verbose" gives Info and "maybe" gives a disabled sink.  The threshold
of a returned logger is one of the five levels, on the cached path too as long
as the cached one is.  A malformed value is replaced by its default and does
not abort the call by itself: the call never exits, it returns whenever the
resolved destination can be prepared, and it panics exactly when `PrepareFile`
panics on the resolved destination, which for a malformed `{w}LOG_FILE` is
standard output. -/
theorem C8_configuration_fallback (h : Host σ) (w : String) (n : Bool) (st : World σ) :
    (specFile "" = "/dev/stdout" ∧ specLevel "verbose" = Info ∧ specSysLog "maybe" = false) ∧
    ((n = true ∨ st.logger = none ∨ ∃ c, st.logger = some c ∧ c.EnvPrefix ≠ w) →
      (∀ (i : File) (st1 : World σ),
        PrepareFile h (specFile (getenv st.env (w ++ "LOG_FILE")))
          (push st (configEvents h st.env w)) = (Outcome.ret i, st1) →
        ∃ c st2, GetLoggerFromEnv h w n st = (Outcome.ret (some c), st2)) ∧
      (∀ (c : Logger) (st2 : World σ),
        GetLoggerFromEnv h w n st = (Outcome.ret (some c), st2) →
          c.Logger.out = File.mk (specFile (getenv st.env (w ++ "LOG_FILE"))) ∧
          c.Level = specLevel (getenv st.env (w ++ "LOG_LEVEL")) ∧
          c.SysLog = specSysLog (getenv st.env (w ++ "LOG_SYSLOG")) ∧
          c.Logger.pre = getenv st.env (w ++ "LOG_PREFIX") ∧
          Error ≤ c.Level ∧ c.Level ≤ Trace) ∧
      ((∃ e st2, GetLoggerFromEnv h w n st = (Outcome.panic e, st2)) ↔
        ∃ e st1, PrepareFile h (specFile (getenv st.env (w ++ "LOG_FILE")))
          (push st (configEvents h st.env w)) = (Outcome.panic e, st1)) ∧
      (∀ (k : Int) (st2 : World σ), GetLoggerFromEnv h w n st ≠ (Outcome.exit k, st2))) ∧
    ((∀ c0, st.logger = some c0 → Error ≤ c0.Level ∧ c0.Level ≤ Trace) →
      ∀ (o : Option Logger) (st1 : World σ), GetLoggerFromEnv h w n st = (Outcome.ret o, st1) →
        ∃ c, o = some c ∧ st1.logger = some c ∧ Error ≤ c.Level ∧ c.Level ≤ Trace) := by
  have hfields : resolved h st w =
      { addr := st.next, EnvPrefix := w,
        Logger := log.New (File.mk (specFile (getenv st.env (w ++ "LOG_FILE"))))
          (getenv st.env (w ++ "LOG_PREFIX")) (log.Ldate ||| log.Ltime ||| log.Lmicroseconds),
        Level := specLevel (getenv st.env (w ++ "LOG_LEVEL")),
        SysLog := specSysLog (getenv st.env (w ++ "LOG_SYSLOG")) } := by
    simp only [resolved, envFile_eq_spec, envLevel_eq_spec, envSysLog_eq_spec]
  have hfresh : stale st.logger w n = true → ∀ (c : Logger) (st2 : World σ),
      GetLoggerFromEnv h w n st = (Outcome.ret (some c), st2) →
        st2.logger = some c ∧
        c.Logger.out = File.mk (specFile (getenv st.env (w ++ "LOG_FILE"))) ∧
        c.Level = specLevel (getenv st.env (w ++ "LOG_LEVEL")) ∧
        c.SysLog = specSysLog (getenv st.env (w ++ "LOG_SYSLOG")) ∧
        c.Logger.pre = getenv st.env (w ++ "LOG_PREFIX") ∧
        Error ≤ c.Level ∧ c.Level ≤ Trace := by
    intro hs c st2 hg
    rcases PrepareFile_total h (envFile (getenv st.env (w ++ "LOG_FILE")))
      (push st (configEvents h st.env w)) with ⟨i, st1, hp⟩ | ⟨e, st1, hp⟩
    · rw [GetLoggerFromEnv_built h w n st hs i st1 hp] at hg
      simp only [Prod.mk.injEq, Outcome.ret.injEq, Option.some.injEq] at hg
      obtain ⟨hc, hst⟩ := hg
      have hc2 := hc.symm.trans hfields
      refine ⟨by rw [← hst, hc], ?_, ?_, ?_, ?_, ?_, ?_⟩
      · rw [hc2]; rfl
      · rw [hc2]
      · rw [hc2]
      · rw [hc2]; rfl
      · rw [hc2]; exact (specLevel_range _).1
      · rw [hc2]; exact (specLevel_range _).2
    · rw [GetLoggerFromEnv_failed h w n st hs e st1 hp] at hg
      simp at hg
  refine ⟨⟨by decide, by decide, by decide⟩, ?_, ?_⟩
  · intro hcond
    have hs : stale st.logger w n = true := (stale_iff st.logger w n).mpr hcond
    refine ⟨?_, ?_, ?_, ?_⟩
    · intro i st1 hp
      rw [← envFile_eq_spec] at hp
      exact ⟨_, _, GetLoggerFromEnv_built h w n st hs i st1 hp⟩
    · intro c st2 hg
      exact (hfresh hs c st2 hg).2
    · rw [← envFile_eq_spec]
      constructor
      · rintro ⟨e, st2, hg⟩
        rcases PrepareFile_total h (envFile (getenv st.env (w ++ "LOG_FILE")))
          (push st (configEvents h st.env w)) with ⟨i, st1, hp⟩ | ⟨e1, st1, hp⟩
        · rw [GetLoggerFromEnv_built h w n st hs i st1 hp] at hg
          simp at hg
        · exact ⟨e1, st1, hp⟩
      · rintro ⟨e, st1, hp⟩
        exact ⟨e, st1, GetLoggerFromEnv_failed h w n st hs e st1 hp⟩
    · intro k st2 hg
      rcases PrepareFile_total h (envFile (getenv st.env (w ++ "LOG_FILE")))
        (push st (configEvents h st.env w)) with ⟨i, st1, hp⟩ | ⟨e1, st1, hp⟩
      · rw [GetLoggerFromEnv_built h w n st hs i st1 hp] at hg
        simp at hg
      · rw [GetLoggerFromEnv_failed h w n st hs e1 st1 hp] at hg
        simp at hg
  · intro hinv o st1 hg
    cases hs : stale st.logger w n
    · rw [GetLoggerFromEnv_cached h w n st hs] at hg
      simp only [Prod.mk.injEq, Outcome.ret.injEq] at hg
      obtain ⟨ho, hst⟩ := hg
      subst hst
      subst ho
      cases hl : st.logger with
      | none => simp [stale, hl] at hs
      | some c => exact ⟨c, rfl, rfl, hinv c hl⟩
    · cases o with
      | none =>
        rcases PrepareFile_total h (envFile (getenv st.env (w ++ "LOG_FILE")))
          (push st (configEvents h st.env w)) with ⟨i, st2, hp⟩ | ⟨e1, st2, hp⟩
        · rw [GetLoggerFromEnv_built h w n st hs i st2 hp] at hg
          simp at hg
        · rw [GetLoggerFromEnv_failed h w n st hs e1 st2 hp] at hg
          simp at hg
      | some c =>
        obtain ⟨h1, -, -, -, -, h5, h6⟩ := hfresh hs c st1 hg
        exact ⟨c, rfl, h1, h5, h6⟩

/-- C8, witness: with `LOG_FILE=""`, `LOG_LEVEL="verbose"` and
`LOG_SYSLOG="maybe"` the first call returns a logger on standard output with
threshold Info and the secondary sink disabled, after two warnings for each
of the three values. -/
theorem C8_configuration_fallback_witness :
    (GetLoggerFromEnv demoHost "" false (demoWorld demoBadEnv)).1 =
      Outcome.ret (some
        { addr := 0, EnvPrefix := "", Logger := log.New (File.mk "/dev/stdout") "" 7,
          Level := Info, SysLog := false }) ∧
    secondary (added (demoWorld demoBadEnv)
        (GetLoggerFromEnv demoHost "" false (demoWorld demoBadEnv)).2) =
      ["[WARN] Unable to parse LOG_SYSLOG : strconv.ParseBool: parsing \"maybe\": invalid syntax\n",
        "[WARN] Using default value \"false\"\n",
        "[WARN] Invalid value for LOG_FILE : \"\"\n",
        "[WARN] Using default value \"/dev/stdout\"\n",
        "[WARN] Invalid value for LOG_LEVEL \"verbose\"\n",
        "[WARN] Using default value \"info\"\n"] ∧
    (File.mk "/dev/stdout" =
        File.mk (specFile (getenv (demoWorld demoBadEnv).env ("" ++ "LOG_FILE"))) ∧
      Info = specLevel (getenv (demoWorld demoBadEnv).env ("" ++ "LOG_LEVEL")) ∧
      false = specSysLog (getenv (demoWorld demoBadEnv).env ("" ++ "LOG_SYSLOG")) ∧
      "" = getenv (demoWorld demoBadEnv).env ("" ++ "LOG_PREFIX") ∧
      Error ≤ Info ∧ Info ≤ Trace) :=
  ⟨by rfl, by decide,
    ((C8_configuration_fallback demoHost "" false (demoWorld demoBadEnv)).2.1
      (Or.inr (Or.inl rfl))).2.1
      { addr := 0, EnvPrefix := "", Logger := log.New (File.mk "/dev/stdout") "" 7,
        Level := Info, SysLog := false }
      (GetLoggerFromEnv demoHost "" false (demoWorld demoBadEnv)).2 (by rfl)⟩

/-- C8, counterexample: on a host where standard output cannot be opened,
the malformed value `LOG_FILE="ab"` resolves to standard output and the call
panics with the error of `os.OpenFile`, while with the well-formed value
`/tmp/x.log`, everything else the same, the call returns a logger. -/
theorem C8_configuration_fallback_counterexample :
    specFile "ab" = "/dev/stdout" ∧
    (GetLoggerFromEnv demoHost "" false
      (demoClosedWorld [("LOG_SYSLOG", "false"), ("LOG_FILE", "ab"), ("LOG_LEVEL", "info")])).1 =
        Outcome.panic "open /dev/stdout: permission denied" ∧
    (GetLoggerFromEnv demoHost "" false
      (demoClosedWorld [("LOG_SYSLOG", "false"), ("LOG_FILE", "ab"),
        ("LOG_LEVEL", "info")])).2.logger = none ∧
    (GetLoggerFromEnv demoHost "" false
      (demoClosedWorld [("LOG_SYSLOG", "false"), ("LOG_FILE", "/tmp/x.log"),
        ("LOG_LEVEL", "info")])).1 =
        Outcome.ret (some
          { addr := 0, EnvPrefix := "", Logger := log.New (File.mk "/tmp/x.log") "" 7,
            Level := Info, SysLog := false }) :=
  ⟨by decide, by rfl, by rfl, by rfl⟩

/-- C9: `Panic(s)` writes the one entry `[PANIC] "s"` to the logger's file and
ends in a panic carrying `s`, whatever the threshold; `Recover(r)`, called
next, returns normally, and the file has then received the PANIC entry, the
entry `[RECOVER] "r"` and, exactly when the threshold is at least Debug, one
DEBUG entry holding the stack trace, in this order. -/
theorem C9_panic_then_recover (h : Host σ) (l : Logger) (s r : String) (w : World σ) :
    (l.Panic s w).1 = Outcome.panic s ∧
    wrote l (l.Panic s) w = ["[PANIC] \"" ++ s ++ "\"\n"] ∧
    (l.Recover h r (l.Panic s w).2).1 = Outcome.ret () ∧
    wrote l (l.Recover h r) (l.Panic s w).2 =
      ["[RECOVER] \"" ++ r ++ "\"\n"] ++
        (if Debug ≤ l.Level then
          ["[DEBUG] \"" ++ h.Sprintf "Panic was : %s" [Value.bytes h.Stack] ++ "\"\n"]
        else []) ∧
    primary l.Logger.out (added w (l.Recover h r (l.Panic s w).2).2) =
      ["[PANIC] \"" ++ s ++ "\"\n", "[RECOVER] \"" ++ r ++ "\"\n"] ++
        (if Debug ≤ l.Level then
          ["[DEBUG] \"" ++ h.Sprintf "Panic was : %s" [Value.bytes h.Stack] ++ "\"\n"]
        else []) := by
  refine ⟨by rw [Panic_run], ?_, by rw [Recover_run], ?_, ?_⟩
  · rw [wrote_eq l _ w _ _ (Panic_run l s w), primary_append, primary_sysEvents]
    simp [primary, fileEvent, tagged_eq]
  · rw [wrote_eq l _ _ _ _ (Recover_run h l r _), primary_append, primary_append,
      primary_sysEvents]
    split <;> simp [primary, fileEvent, tagged_eq]
  · rw [Panic_run, Recover_run, push_push, added_push]
    simp only [primary_append, primary_sysEvents]
    split <;> simp [primary, fileEvent, tagged_eq]

/-- C10: `NewLogger` does not validate the level name.  For a name `v` that is
none of the five, the logger it yields has threshold 0, below Error, not
Info; construction adds no event (no "New logger created" entry); on this
logger Trace, Debug, Info and Warning write nothing to its file and Error
writes its entry; and every entry point does on it exactly what it does on
the logger that `NewLogger` yields for the name "error". -/
theorem C10_unknown_level_name (h : Host σ) (f p v : String) (b : Bool) (st st1 : World σ)
    (l0 : Logger)
    (hv : v ≠ "trace" ∧ v ≠ "debug" ∧ v ≠ "info" ∧ v ≠ "warning" ∧ v ≠ "error")
    (hN : NewLogger h f p v b st = (Outcome.ret l0, st1)) :
    l0.Level = 0 ∧ l0.Level < Error ∧ l0.Level ≠ Info ∧
    added st st1 = [] ∧
    NewLogger h f p "error" b st = (Outcome.ret { l0 with Level := Error }, st1) ∧
    (∀ (s : String) (w : World σ),
      wrote l0 (l0.Trace s) w = [] ∧ wrote l0 (l0.Debug s) w = [] ∧
      wrote l0 (l0.Info s) w = [] ∧ wrote l0 (l0.Warning s) w = [] ∧
      wrote l0 (l0.Error s) w = ["[ERROR] \"" ++ s ++ "\"\n"]) ∧
    (∀ (c : Call) (w : World σ),
      l0.call h c w = Logger.call h { l0 with Level := Error } c w ∧
      wrote l0 (l0.call h c) w =
        wrote { l0 with Level := Error } (Logger.call h { l0 with Level := Error } c) w) := by
  obtain ⟨h1, h2, h3, h4, h5⟩ := hv
  have hidx : mapIndex logLevelLookup v = 0 := by
    simp [mapIndex, lookup_other v h1 h2 h3 h4 h5]
  obtain ⟨hl0, fs1, hp, hst1⟩ := NewLogger_ret h f p v b st l0 st1 hN
  have hlv : l0.Level = 0 := by rw [hl0]; exact hidx
  have hnd : ¬ logger.Debug ≤ mapIndex logLevelLookup v := by rw [hidx]; decide
  rw [if_neg hnd, push_nil] at hst1
  have hcall : ∀ (c : Call) (w : World σ),
      l0.call h c w = Logger.call h { l0 with Level := Error } c w := by
    intro c w
    exact call_congr h l0 { l0 with Level := Error } rfl rfl (by rw [hlv]; decide)
      (show Error < Warning by decide) c w
  refine ⟨hlv, by rw [hlv]; decide, by rw [hlv]; decide, ?_, ?_, ?_, ?_⟩
  · rw [hst1]
    simp [added]
  · rw [NewLogger_of_prepared h f p "error" b st _ _ hp, hst1, hl0]
    have he : ¬ logger.Debug ≤ mapIndex logLevelLookup "error" := by decide
    rw [if_neg he, push_nil]
    rfl
  · intro s w
    have e2 : ¬ Warning ≤ l0.Level := by rw [hlv]; decide
    have e3 : ¬ Info ≤ l0.Level := by rw [hlv]; decide
    have e4 : ¬ Debug ≤ l0.Level := by rw [hlv]; decide
    have e5 : ¬ Trace ≤ l0.Level := by rw [hlv]; decide
    refine ⟨?_, ?_, ?_, ?_, ?_⟩
    · rw [wrote_eq l0 _ w _ _ (Trace_run l0 s w), if_neg e5]; rfl
    · rw [wrote_eq l0 _ w _ _ (Debug_run l0 s w), if_neg e4]; rfl
    · rw [wrote_eq l0 _ w _ _ (Info_run l0 s w), if_neg e3]; rfl
    · rw [wrote_eq l0 _ w _ _ (Warning_run l0 s w), if_neg e2, primary_append,
        primary_sysEvents]; rfl
    · rw [wrote_eq l0 _ w _ _ (Error_run l0 s w), primary_append, primary_sysEvents]
      simp [primary, fileEvent, tagged_eq]
  · intro c w
    refine ⟨hcall c w, ?_⟩
    simp only [wrote, hcall c w]

/-- C10, witness: the upper-case name "WARNING" gives a logger with threshold
0 on which `Warning` writes nothing. -/
theorem C10_unknown_level_name_witness :
    NewLogger demoHost "/tmp/x.log" "app: " "WARNING" false (demoWorld []) =
      (Outcome.ret (demoLogger 0 false),
        { demoWorld [] with
          fs := { demoDisk with paths := "/tmp/x.log" :: demoDisk.paths }, next := 1 }) ∧
    (demoLogger 0 false).Level = 0 ∧
    wrote (demoLogger 0 false) ((demoLogger 0 false).Warning "test warning") (demoWorld []) = [] :=
  ⟨by rfl,
    (C10_unknown_level_name demoHost "/tmp/x.log" "app: " "WARNING" false (demoWorld [])
      { demoWorld [] with fs := { demoDisk with paths := "/tmp/x.log" :: demoDisk.paths }, next := 1 }
      (demoLogger 0 false) (by decide) (by rfl)).1,
    ((C10_unknown_level_name demoHost "/tmp/x.log" "app: " "WARNING" false (demoWorld [])
      { demoWorld [] with fs := { demoDisk with paths := "/tmp/x.log" :: demoDisk.paths }, next := 1 }
      (demoLogger 0 false) (by decide) (by rfl)).2.2.2.2.2.1 "test warning" (demoWorld [])).2.2.2.1⟩

end logger
